import Mathlib

/-!
Verification of the FinSense agent orchestration engine against its design
specification.  The definitions below are a shallow embedding of
`backend/agent/nodes.py`, `backend/agent/state.py` and `backend/agent/graph.py`:

* Python strings are Lean `String`s; Python's `in` substring test and
  `str.lower()` are modelled on the underlying character lists so that the
  kernel can evaluate them.
* Python floats (income, spending amounts, scores) are idealized as exact
  rationals `ℚ`; `round(x, 2)` is modelled as round-half-to-even on rationals
  (Python's documented rounding mode).
* External collaborators (anomaly service, live-data providers, knowledge
  store, the two generation backends) are parameters gathered in an `Env`
  record; fallible ones return `Except String α`, where `Except.error`
  models a raised exception carrying `str(e)`.
* Wall-clock timestamps and `time.sleep` delays are abstracted (timestamps
  become `""`); thousands-separator number formatting inside prompt text is
  abstracted to plain `toString`.
-/

/-! ## String primitives: Python's `in` and `str.lower()` -/

/-- Model of prefix testing on character lists. -/
def startsWithCL : List Char → List Char → Bool
  | _, [] => true
  | [], _ :: _ => false
  | c :: cs, p :: ps => c == p && startsWithCL cs ps

/-- Model of contiguous-substring occurrence on character lists. -/
def hasSubCL : List Char → List Char → Bool
  | l, pat =>
    startsWithCL l pat ||
      (match l with
       | [] => false
       | _ :: cs => hasSubCL cs pat)

/-- Python's `pat in s` substring containment. -/
def containsSub (s pat : String) : Bool := hasSubCL s.data pat.data

/-- Python's `s.lower()`. -/
def lowerStr (s : String) : String := ⟨s.data.map Char.toLower⟩

/-! ## Resilient generation client (`SmartLLMClient`, nodes.py lines 32-87)

A provider backend is modelled as a function from the call arguments plus an
attempt index (0 = first call inside one `generate` invocation, 1 = the final
retry) to an outcome: either the returned text or the `str(e)` of a raised
exception.  The Groq backend receives the prompt and the token budget; the
Gemini backend receives the prompt only, exactly as in the source
(`generate_content(model=..., contents=prompt)` forwards no token limit). -/

/-- Outcome of one provider call: returned text, or a raised error's string. -/
inductive LLMResult where
  | ok (text : String)
  | err (msg : String)
deriving DecidableEq, Repr

/-- Outcome of `SmartLLMClient.generate`: the function either returns a string
or raises an exception. -/
inductive GenOutcome where
  | returned (text : String)
  | raised (msg : String)
deriving DecidableEq, Repr

/-- Which backend a call went to, for the ordered attempt log. -/
inductive ProviderCall where
  | primary
  | secondary
deriving DecidableEq, Repr

/-- Quota/rate classification of a Groq failure (nodes.py line 53):
`"429" in error_str or "rate" in error_str.lower() or "quota" in error_str.lower()`. -/
def isQuotaGroq (s : String) : Bool :=
  containsSub s "429" || containsSub (lowerStr s) "rate" || containsSub (lowerStr s) "quota"

/-- Quota classification of a Gemini failure (nodes.py line 67):
`"429" in gemini_error_str or "RESOURCE_EXHAUSTED" in gemini_error_str`. -/
def isQuotaGemini (s : String) : Bool :=
  containsSub s "429" || containsSub s "RESOURCE_EXHAUSTED"

/-- The static fallback string returned after the final retry fails
(nodes.py line 80). -/
def fallbackMessage : String :=
  "Unable to generate response — quota exceeded. Please try again in a few minutes."

/-- `SmartLLMClient.generate` (nodes.py lines 39-83).  Besides the outcome it
records the ordered log of provider calls made, so attempt counts and order
are observable.  The sleeps at lines 55 and 69 are abstracted away. -/
def generate (groq : String → Nat → Nat → LLMResult) (gemini : String → Nat → LLMResult)
    (prompt : String) (max_tokens : Nat) : GenOutcome × List ProviderCall :=
  match groq prompt max_tokens 0 with
  | .ok t => (.returned t, [.primary])
  | .err e =>
    if isQuotaGroq e then
      -- fall back to Gemini; the token budget is not forwarded
      match gemini prompt 0 with
      | .ok t => (.returned t, [.primary, .secondary])
      | .err g =>
        if isQuotaGemini g then
          -- one final retry with Groq; any failure yields the static fallback
          match groq prompt max_tokens 1 with
          | .ok t => (.returned t, [.primary, .secondary, .primary])
          | .err _ => (.returned fallbackMessage, [.primary, .secondary, .primary])
        else (.raised g, [.primary, .secondary])
    else (.raised e, [.primary])

/-! ## Data model (`state.py`) -/

/-- Python's `str.upper()`. -/
def upperStr (s : String) : String := ⟨s.data.map Char.toUpper⟩

/-- Lookup with default on a string-keyed dictionary, Python's `d.get(k, default)`. -/
def dictGetD (d : List (String × String)) (k default : String) : String :=
  match d.find? (fun kv => kv.1 == k) with
  | some kv => kv.2
  | none => default

/-- One anomaly entry produced by the anomaly service
(`{category, amount, percentage_of_income, benchmark_percentage, is_anomalous,
anomaly_score, verdict}`). -/
structure Anomaly where
  category : String
  amount : ℚ
  percentage_of_income : ℚ
  benchmark_percentage : ℚ
  is_anomalous : Bool
  anomaly_score : ℚ
  verdict : String
deriving DecidableEq, Repr

/-- One retrieved knowledge passage (`retriever.py` result entries). -/
structure Passage where
  content : String
  title : String
  source : String
  country : String
  similarity : ℚ
deriving DecidableEq, Repr

/-- Health-score result (`compute_health_score` returns `{score, grade}`). -/
structure HealthResult where
  score : ℚ
  grade : String
deriving DecidableEq, Repr

/-- One reasoning-trace entry (`add_step` dict, nodes.py lines 93-99).
The wall-clock timestamp is abstracted to `""`. -/
structure AgentStep where
  step_number : Nat
  step_name : String
  detail : String
  timestamp : String
  status : String
deriving DecidableEq, Repr

/-- The rebuilt-budget breakdown (nodes.py lines 321-334). -/
structure RebuiltBudget where
  needs : ℚ
  wants : ℚ
  savings_investments : ℚ
  framework : String
deriving DecidableEq, Repr

/-- The agent state (`AgentState` TypedDict, state.py).  Opaque provider
dictionaries are modelled as string-keyed association lists; `projections` maps
a scenario name to its future value (the only field of it the core reads). -/
structure AgentState where
  country : String
  monthly_income : ℚ
  spending : List (String × ℚ)
  language : String
  anomalies : List Anomaly
  health_score : ℚ
  health_grade : String
  inflation_data : List (String × String)
  market_data : List (String × String)
  news_articles : List String
  tax_estimate : List (String × String)
  projections : List (String × ℚ)
  investment_recommendations : List String
  retrieved_knowledge : List Passage
  roast : String
  coach_plan : String
  rebuilt_budget : Option RebuiltBudget
  steps : List AgentStep
  timestamp : String
  error : Option String
deriving DecidableEq, Repr

/-- The user's budget input (the four keys `create_initial_state` reads;
its `.get` defaults apply when a key is absent, which the embedding treats
as already resolved). -/
structure BudgetInput where
  country : String
  monthly_income : ℚ
  spending : List (String × ℚ)
  language : String
deriving DecidableEq, Repr

/-- `create_initial_state` (state.py lines 49-90): all derived fields start
empty, the error slot starts `None`. -/
def create_initial_state (budget_input : BudgetInput) : AgentState where
  country := budget_input.country
  monthly_income := budget_input.monthly_income
  spending := budget_input.spending
  language := budget_input.language
  anomalies := []
  health_score := 0
  health_grade := ""
  inflation_data := []
  market_data := []
  news_articles := []
  tax_estimate := []
  projections := []
  investment_recommendations := []
  retrieved_knowledge := []
  roast := ""
  coach_plan := ""
  rebuilt_budget := none
  steps := []
  timestamp := ""
  error := none

/-- External collaborators consumed by the pipeline.  `Except.error s` models a
raised exception with `str(e) = s`.  The generation backends are as in
`generate` above and are shared by stages 4 and 5. -/
structure Env where
  detect_anomalies : List (String × ℚ) → ℚ → String → Except String (List Anomaly)
  compute_health_score :
    List (String × ℚ) → ℚ → List Anomaly → String → Except String HealthResult
  get_inflation : String → Except String (List (String × String))
  get_market_data : String → Except String (List (String × String))
  get_financial_news : String → Nat → Except String (List String)
  get_tax_estimate : String → ℚ → Except String (List (String × String))
  generate_projections : ℚ → String → Except String (List (String × ℚ))
  retrieve_knowledge : String → String → Nat → Except String (List Passage)
  groq : String → Nat → Nat → LLMResult
  gemini : String → Nat → LLMResult

/-- `add_step` (nodes.py lines 90-100): appends one entry numbered
`len(steps) + 1` with status `"complete"`; returns the new list. -/
def add_step (state : AgentState) (step_name : String) (detail : String := "") :
    List AgentStep :=
  state.steps ++
    [{ step_number := state.steps.length + 1, step_name := step_name,
       detail := detail, timestamp := "", status := "complete" }]

/-! ## Stage functions (nodes.py) -/

/-- Stage 1, `node_analyze_spending` (nodes.py lines 104-130): anomaly
detection plus health score; a failure of either service propagates. -/
def node_analyze_spending (env : Env) (state : AgentState) : Except String AgentState :=
  match env.detect_anomalies state.spending state.monthly_income state.country with
  | .error e => .error e
  | .ok anomalies =>
    match env.compute_health_score state.spending state.monthly_income anomalies state.country with
    | .error e => .error e
    | .ok health_result =>
      let steps := add_step state "Analyzing spending patterns"
        ("Found " ++ toString (anomalies.filter (·.is_anomalous)).length ++
          " anomalies in your budget")
      .ok { state with
            anomalies := anomalies,
            health_score := health_result.score,
            health_grade := health_result.grade,
            steps := steps }

/-- Stage 2, `node_fetch_live_data` (nodes.py lines 134-171): annualized
income, four provider snapshots, investable surplus and projections.  The
news provider is called with `max_articles = 5`; the embedding's oracle
returns the `"articles"` list directly. -/
def node_fetch_live_data (env : Env) (state : AgentState) : Except String AgentState :=
  let annual_income := state.monthly_income * 12
  match env.get_inflation state.country with
  | .error e => .error e
  | .ok inflation_data =>
  match env.get_market_data state.country with
  | .error e => .error e
  | .ok market_data =>
  match env.get_financial_news state.country 5 with
  | .error e => .error e
  | .ok news_articles =>
  match env.get_tax_estimate state.country annual_income with
  | .error e => .error e
  | .ok tax_estimate =>
  let total_spending :=
    ((state.spending.filter (fun kv => !(kv.1 == "savings" || kv.1 == "investments"))).map
      (·.2)).sum
  let investable_amount := max 0 (state.monthly_income - total_spending)
  match env.generate_projections investable_amount state.country with
  | .error e => .error e
  | .ok projections =>
    let steps := add_step state "Fetching live market and economic data"
      ("Inflation: " ++ dictGetD inflation_data "inflation_rate" "N/A" ++
        "% | Fetched market prices + " ++ toString news_articles.length ++ " news articles")
    .ok { state with
          inflation_data := inflation_data,
          market_data := market_data,
          news_articles := news_articles,
          tax_estimate := tax_estimate,
          projections := projections,
          steps := steps }

/-- The top-3 anomalous entries by descending anomaly score
(`sorted(anomalous, key=..., reverse=True)[:3]`, nodes.py line 188).
Python's sort is stable; `mergeSort` with `b.score ≤ a.score` matches it. -/
def topAnomalies (l : List Anomaly) : List Anomaly :=
  (List.mergeSort l (fun a b => decide (b.anomaly_score ≤ a.anomaly_score))).take 3

/-- Stage 3, `node_retrieve_knowledge` (nodes.py lines 175-205): builds the
query from the flagged anomalies (or a generic region query), asks the
knowledge store for 4 results; any raised exception degrades to an empty
retrieved-knowledge list plus an error trace entry — the node never fails. -/
def node_retrieve_knowledge (env : Env) (state : AgentState) : Except String AgentState :=
  let anomalous := state.anomalies.filter (·.is_anomalous)
  let query :=
    if anomalous.isEmpty then
      "general budgeting and investing advice for " ++ state.country
    else
      "budgeting advice for overspending on " ++
        String.intercalate ", " ((topAnomalies anomalous).map (·.category))
  match env.retrieve_knowledge query state.country 4 with
  | .ok knowledge =>
    let steps := add_step state "Retrieving financial literacy knowledge"
      ("Found " ++ toString knowledge.length ++ " relevant passages from trusted sources")
    .ok { state with retrieved_knowledge := knowledge, steps := steps }
  | .error e =>
    let steps := add_step state "Knowledge retrieval" ("Error: " ++ e)
    .ok { state with retrieved_knowledge := [], steps := steps }

/-- Currency symbol selection (nodes.py lines 223 and 278). -/
def currencyFor (country : String) : String := if country == "india" then "₹" else "$"

/-- One line of the roast prompt's problematic-spending block
(nodes.py lines 226-229). -/
def anomalyLine (currency : String) (a : Anomaly) : String :=
  "- " ++ a.category ++ ": " ++ currency ++ toString a.amount ++ "/month (" ++
    toString a.percentage_of_income ++ "% of income, benchmark is " ++
    toString a.benchmark_percentage ++ "%)"

/-- The roast prompt (nodes.py lines 234-254). -/
def roastPrompt (country currency : String) (monthly_income health_score : ℚ)
    (inflation_rate anomaly_text hinglish_instruction : String) : String :=
  "You are a brutally honest financial advisor who roasts people\x27s budgets.\n" ++
  "Be specific, funny, and harsh but not mean-spirited. Reference their actual numbers.\n\n" ++
  "User\x27s Financial Profile:\n" ++
  "- Country: " ++ upperStr country ++ "\n" ++
  "- Monthly Income: " ++ currency ++ toString monthly_income ++ "\n" ++
  "- Financial Health Score: " ++ toString health_score ++ "/100\n" ++
  "- Current Inflation Rate: " ++ inflation_rate ++ "%\n\n" ++
  "Problematic Spending:\n" ++ anomaly_text ++ "\n\n" ++
  hinglish_instruction ++ "\n\n" ++
  "Write a roast (150-200 words) that:\n" ++
  "1. Opens with a punchy one-liner about their overall financial situation\n" ++
  "2. Calls out their 2-3 worst spending habits with specific numbers\n" ++
  "3. Makes a comparison (e.g. \"your Swiggy spend could fund X months of SIP\")\n" ++
  "4. Ends with a one-liner that stings but motivates\n\n" ++
  "Be specific to their numbers. Do not be generic."

/-- Stage 4, `node_generate_roast` (nodes.py lines 209-260): builds the roast
prompt and calls the resilient client with a 500-token budget; a raised
(non-quota) generation error propagates out of the stage. -/
def node_generate_roast (env : Env) (state : AgentState) : Except String AgentState :=
  let currency := currencyFor state.country
  let anomalous := state.anomalies.filter (·.is_anomalous)
  let anomaly_text :=
    if anomalous.isEmpty then "No major anomalies found"
    else String.intercalate "\n" (anomalous.map (anomalyLine currency))
  let hinglish_instruction :=
    if state.language == "hinglish" then
      "Write in Hinglish (mix of Hindi and English, casual tone)"
    else "Write in English"
  let inflation_rate := dictGetD state.inflation_data "inflation_rate" "N/A"
  let prompt := roastPrompt state.country currency state.monthly_income state.health_score
    inflation_rate anomaly_text hinglish_instruction
  match generate env.groq env.gemini prompt 500 with
  | (.raised e, _) => .error e
  | (.returned roast, _) =>
    let steps := add_step state "Generating your financial roast" "Roast generated successfully"
    .ok { state with roast := roast, steps := steps }

/-- Python's `k.replace("_", " ")` on projection-scenario names
(title-casing of the result is abstracted). -/
def underscoreToSpace (s : String) : String :=
  ⟨s.data.map (fun c => if c == '_' then ' ' else c)⟩

/-- Round-half-to-even to an integer, Python's `round(x)` on an exact value. -/
def roundHalfEven (x : ℚ) : ℤ :=
  if x - ⌊x⌋ < 1/2 then ⌊x⌋
  else if 1/2 < x - ⌊x⌋ then ⌊x⌋ + 1
  else if ⌊x⌋ % 2 = 0 then ⌊x⌋ else ⌊x⌋ + 1

/-- Python's `round(x, 2)` idealized over exact rationals. -/
def round2 (x : ℚ) : ℚ := (roundHalfEven (x * 100) : ℚ) / 100

/-- The rebuilt-budget computation of stage 5 (nodes.py lines 321-334):
income times the region's framework ratios, each component rounded to two
decimal places independently. -/
def rebuiltBudget (country : String) (monthly_income : ℚ) : RebuiltBudget :=
  if country == "india" then
    { needs := round2 (monthly_income * (40/100)),
      wants := round2 (monthly_income * (30/100)),
      savings_investments := round2 (monthly_income * (30/100)),
      framework := "40/30/30" }
  else
    { needs := round2 (monthly_income * (50/100)),
      wants := round2 (monthly_income * (30/100)),
      savings_investments := round2 (monthly_income * (20/100)),
      framework := "50/30/20" }

/-- The coach-plan prompt (nodes.py lines 292-317). -/
def coachPrompt (country currency framework : String) (monthly_income : ℚ)
    (inflation_rate spending_lines proj_summary tax_tip knowledge_context : String) : String :=
  "You are a certified financial planner giving serious, actionable advice.\n\n" ++
  "User Profile:\n" ++
  "- Country: " ++ upperStr country ++ "\n" ++
  "- Monthly Income: " ++ currency ++ toString monthly_income ++ "\n" ++
  "- Current Inflation: " ++ inflation_rate ++ "%\n" ++
  "- Budget Framework: " ++ framework ++ " rule\n\n" ++
  "Current Spending:\n" ++ spending_lines ++ "\n\n" ++
  "If they invest their surplus monthly:\n" ++ proj_summary ++ "\n\n" ++
  "Tax Tip: " ++ tax_tip ++ "\n\n" ++
  "Financial Knowledge Context:\n" ++ knowledge_context ++ "\n\n" ++
  "Write a Coach Plan (250-300 words) with these sections:\n" ++
  "1. **Budget Rebuild** — show the " ++ framework ++ " breakdown with their actual income\n" ++
  "2. **Top 3 Actions** — specific, numbered steps to take this week\n" ++
  "3. **Investing Starter Plan** — where to start, how much, why\n" ++
  "4. **The 10-Year Picture** — what disciplined investing looks like for them\n\n" ++
  "Be specific with numbers. Cite the framework. Make it feel achievable."

/-- Stage 5, `node_generate_coach_plan` (nodes.py lines 264-343): builds the
coach prompt (top-3 knowledge passages truncated to 200 characters), calls the
resilient client with an 800-token budget, and computes the rebuilt budget
purely.  The embedding's `projections` field is the inner mapping that the
source reads via `projections.get("projections", {})`. -/
def node_generate_coach_plan (env : Env) (state : AgentState) : Except String AgentState :=
  let currency := currencyFor state.country
  let framework := if state.country == "india" then "40/30/30" else "50/30/20"
  let inflation_rate := dictGetD state.inflation_data "inflation_rate" "N/A"
  let tax_tip := dictGetD state.tax_estimate "tip" ""
  let proj_summary :=
    if state.projections.isEmpty then "Projections unavailable"
    else String.intercalate "\n" (state.projections.map
      (fun kv => "- " ++ underscoreToSpace kv.1 ++ ": " ++ currency ++ toString kv.2))
  let knowledge_context :=
    if state.retrieved_knowledge.isEmpty then ""
    else String.intercalate "\n" ((state.retrieved_knowledge.take 3).map
      (fun k => "- " ++ k.content.take 200))
  let spending_lines := String.intercalate "\n" (state.spending.map
    (fun kv => "- " ++ kv.1 ++ ": " ++ currency ++ toString kv.2))
  let prompt := coachPrompt state.country currency framework state.monthly_income
    inflation_rate spending_lines proj_summary tax_tip knowledge_context
  match generate env.groq env.gemini prompt 800 with
  | (.raised e, _) => .error e
  | (.returned coach_plan, _) =>
    let steps := add_step state "Building your personalized coach plan" "Coach plan ready"
    .ok { state with
          coach_plan := coach_plan,
          rebuilt_budget := some (rebuiltBudget state.country state.monthly_income),
          steps := steps }

/-- The pipeline driver (`graph.py`): builds the initial record and runs the
five stages in fixed order, propagating any stage's raised exception. -/
def runPipeline (env : Env) (budget_input : BudgetInput) : Except String AgentState :=
  match node_analyze_spending env (create_initial_state budget_input) with
  | .error e => .error e
  | .ok st1 =>
  match node_fetch_live_data env st1 with
  | .error e => .error e
  | .ok st2 =>
  match node_retrieve_knowledge env st2 with
  | .error e => .error e
  | .ok st3 =>
  match node_generate_roast env st3 with
  | .error e => .error e
  | .ok st4 => node_generate_coach_plan env st4

/-! ## Concrete fixtures used by witnesses and counterexamples -/

/-- A sample knowledge passage. -/
def samplePassage : Passage :=
  { content := "Save more.", title := "Basics", source := "KB", country := "both",
    similarity := 1 }

/-- An environment in which every external collaborator succeeds. -/
def okEnv : Env where
  detect_anomalies := fun _ _ _ => .ok []
  compute_health_score := fun _ _ _ _ => .ok { score := 80, grade := "B" }
  get_inflation := fun _ => .ok [("inflation_rate", "6")]
  get_market_data := fun _ => .ok []
  get_financial_news := fun _ _ => .ok ["headline"]
  get_tax_estimate := fun _ _ => .ok [("tip", "use 80C")]
  generate_projections := fun _ _ => .ok []
  retrieve_knowledge := fun _ _ _ => .ok [samplePassage]
  groq := fun _ _ _ => .ok "llm text"
  gemini := fun _ _ => .ok "gemini text"

/-- Like `okEnv`, but both generation backends always quota-fail. -/
def quotaEnv : Env :=
  { okEnv with groq := fun _ _ _ => .err "429", gemini := fun _ _ => .err "429" }

/-- Like `okEnv`, but the primary generation backend always fails with a
non-quota error. -/
def bugEnv : Env := { okEnv with groq := fun _ _ _ => .err "boom" }

/-- Like `okEnv`, but the knowledge store always raises. -/
def kbDownEnv : Env := { okEnv with retrieve_knowledge := fun _ _ _ => .error "kb down" }

/-- A valid budget input. -/
def inputOk : BudgetInput :=
  { country := "india", monthly_income := 1000,
    spending := [("rent", 300), ("savings", 100)], language := "english" }

/-- The initial state built from `inputOk`. -/
def sampleState : AgentState := create_initial_state inputOk

/-- A flagged anomaly. -/
def anomA : Anomaly :=
  { category := "dining_out", amount := 200, percentage_of_income := 20,
    benchmark_percentage := 10, is_anomalous := true, anomaly_score := 5,
    verdict := "critical" }

/-- An unflagged anomaly entry. -/
def anomB : Anomaly :=
  { category := "subscriptions", amount := 50, percentage_of_income := 5,
    benchmark_percentage := 3, is_anomalous := false, anomaly_score := 2,
    verdict := "healthy" }

/-- A state with one flagged and one unflagged anomaly. -/
def anomState : AgentState := { sampleState with anomalies := [anomB, anomA] }

/-! ## Claims about the generation client -/

/-- C1: with both providers always failing with quota-signature errors,
`generate` returns the static fallback string (it does not raise), with the
call log primary, secondary, primary — 2 primary attempts, 1 secondary. -/
theorem generate_quota_exhaustion_fallback
    (groq : String → Nat → Nat → LLMResult) (gemini : String → Nat → LLMResult)
    (prompt : String) (max_tokens : Nat)
    (hg : ∀ mt i, ∃ s, groq prompt mt i = .err s ∧ isQuotaGroq s = true)
    (hm : ∀ i, ∃ s, gemini prompt i = .err s ∧ isQuotaGemini s = true) :
    generate groq gemini prompt max_tokens =
      (GenOutcome.returned fallbackMessage, [.primary, .secondary, .primary]) ∧
    ((generate groq gemini prompt max_tokens).2.count ProviderCall.primary = 2 ∧
     (generate groq gemini prompt max_tokens).2.count ProviderCall.secondary = 1) := by
  obtain ⟨e0, he0, hq0⟩ := hg max_tokens 0
  obtain ⟨e1, he1, hq1⟩ := hg max_tokens 1
  obtain ⟨g0, hg0, hqg⟩ := hm 0
  have : generate groq gemini prompt max_tokens =
      (GenOutcome.returned fallbackMessage, [.primary, .secondary, .primary]) := by
    unfold generate
    rw [he0, hg0, he1]
    simp [hq0, hq1, hqg]
  refine ⟨this, ?_, ?_⟩ <;> rw [this] <;> rfl

/-- Witness for C1 at a concrete quota-failing pair of providers. -/
theorem generate_quota_exhaustion_fallback_witness :
    generate (fun _ _ _ => .err "Error code: 429") (fun _ _ => .err "RESOURCE_EXHAUSTED")
      "roast me" 500 =
      (GenOutcome.returned fallbackMessage, [.primary, .secondary, .primary]) ∧
    ((generate (fun _ _ _ => .err "Error code: 429") (fun _ _ => .err "RESOURCE_EXHAUSTED")
      "roast me" 500).2.count ProviderCall.primary = 2 ∧
     (generate (fun _ _ _ => .err "Error code: 429") (fun _ _ => .err "RESOURCE_EXHAUSTED")
      "roast me" 500).2.count ProviderCall.secondary = 1) :=
  generate_quota_exhaustion_fallback _ _ "roast me" 500
    (fun _ _ => ⟨"Error code: 429", rfl, by decide⟩)
    (fun _ => ⟨"RESOURCE_EXHAUSTED", rfl, by decide⟩)

/-- C2: if the primary provider fails with a non-quota-signature error,
`generate` re-raises that error immediately and the secondary provider is
never attempted (the call log is just one primary call). -/
theorem generate_nonquota_reraises
    (groq : String → Nat → Nat → LLMResult) (gemini : String → Nat → LLMResult)
    (prompt : String) (max_tokens : Nat) (e : String)
    (he : groq prompt max_tokens 0 = .err e) (hq : isQuotaGroq e = false) :
    generate groq gemini prompt max_tokens = (GenOutcome.raised e, [.primary]) ∧
    (generate groq gemini prompt max_tokens).2.count ProviderCall.secondary = 0 := by
  have : generate groq gemini prompt max_tokens = (GenOutcome.raised e, [.primary]) := by
    unfold generate
    rw [he]
    simp [hq]
  exact ⟨this, by rw [this]; rfl⟩

/-- Witness for C2 at a concrete non-quota error. -/
theorem generate_nonquota_reraises_witness :
    generate (fun _ _ _ => .err "invalid api key") (fun _ _ => .ok "unused")
      "roast me" 500 = (GenOutcome.raised "invalid api key", [.primary]) ∧
    (generate (fun _ _ _ => .err "invalid api key") (fun _ _ => .ok "unused")
      "roast me" 500).2.count ProviderCall.secondary = 0 :=
  generate_nonquota_reraises _ _ "roast me" 500 "invalid api key" rfl (by decide)

/-- C3: if the primary fails with a quota-signature error and the secondary
succeeds, `generate` returns exactly the secondary's text, with one primary
attempt and one secondary attempt. -/
theorem generate_secondary_success
    (groq : String → Nat → Nat → LLMResult) (gemini : String → Nat → LLMResult)
    (prompt : String) (max_tokens : Nat) (e t : String)
    (he : groq prompt max_tokens 0 = .err e) (hq : isQuotaGroq e = true)
    (ht : gemini prompt 0 = .ok t) :
    generate groq gemini prompt max_tokens = (GenOutcome.returned t, [.primary, .secondary]) ∧
    ((generate groq gemini prompt max_tokens).2.count ProviderCall.primary = 1 ∧
     (generate groq gemini prompt max_tokens).2.count ProviderCall.secondary = 1) := by
  have : generate groq gemini prompt max_tokens =
      (GenOutcome.returned t, [.primary, .secondary]) := by
    unfold generate
    rw [he, ht]
    simp [hq]
  refine ⟨this, ?_, ?_⟩ <;> rw [this] <;> rfl

/-- Witness for C3 at a concrete quota error and secondary text. -/
theorem generate_secondary_success_witness :
    generate (fun _ _ _ => .err "quota exceeded") (fun _ _ => .ok "gemini text")
      "roast me" 500 = (GenOutcome.returned "gemini text", [.primary, .secondary]) ∧
    ((generate (fun _ _ _ => .err "quota exceeded") (fun _ _ => .ok "gemini text")
      "roast me" 500).2.count ProviderCall.primary = 1 ∧
     (generate (fun _ _ _ => .err "quota exceeded") (fun _ _ => .ok "gemini text")
      "roast me" 500).2.count ProviderCall.secondary = 1) :=
  generate_secondary_success _ _ "roast me" 500 "quota exceeded" "gemini text"
    rfl (by decide) rfl

/-- C10: on the fallback path the secondary backend receives the prompt only —
the caller's `max_tokens` budget is not forwarded — so whenever the primary
quota-fails independently of the budget, the result is the secondary's text
for EVERY budget value, including texts longer than the budget. -/
theorem generate_secondary_ignores_token_budget
    (groq : String → Nat → Nat → LLMResult) (gemini : String → Nat → LLMResult)
    (prompt : String) (e t : String)
    (hq : isQuotaGroq e = true)
    (he : ∀ mt, groq prompt mt 0 = .err e)
    (ht : gemini prompt 0 = .ok t) :
    (∀ max_tokens, generate groq gemini prompt max_tokens =
      (GenOutcome.returned t, [.primary, .secondary])) ∧
    (∀ mt mt', generate groq gemini prompt mt = generate groq gemini prompt mt') := by
  have h : ∀ max_tokens, generate groq gemini prompt max_tokens =
      (GenOutcome.returned t, [.primary, .secondary]) := by
    intro mt
    unfold generate
    rw [he mt, ht]
    simp [hq]
  exact ⟨h, fun mt mt' => (h mt).trans (h mt').symm⟩

/-- Witness for C10: with a budget of 1 token, the secondary's 26-character
text is returned untruncated. -/
theorem generate_secondary_ignores_token_budget_witness :
    ("a very long secondary text".length > 1) ∧
    generate (fun _ _ _ => .err "429") (fun _ _ => .ok "a very long secondary text")
      "roast me" 1 =
      (GenOutcome.returned "a very long secondary text", [.primary, .secondary]) :=
  ⟨by decide,
   (generate_secondary_ignores_token_budget _ _ "roast me" "429"
      "a very long secondary text" (by decide) (fun _ => rfl) rfl).1 1⟩

/-! ## Rounding lemmas -/

/-- Rounding half-to-even lands within half a unit of the argument. -/
theorem roundHalfEven_sub_abs (x : ℚ) : |(roundHalfEven x : ℚ) - x| ≤ 1/2 := by
  have h0 : (⌊x⌋ : ℚ) ≤ x := Int.floor_le x
  have h1 : x < ⌊x⌋ + 1 := Int.lt_floor_add_one x
  rw [abs_le]
  unfold roundHalfEven
  split
  · next h => constructor <;> linarith
  · next h =>
    split
    · next h2 => constructor <;> push_cast <;> linarith
    · next h2 =>
      have hhalf : x - ⌊x⌋ = 1/2 := le_antisymm (not_lt.mp h2) (not_lt.mp h)
      split <;> constructor <;> push_cast <;> linarith

/-- Rounding to two decimals moves a value by at most half a cent. -/
theorem round2_sub_abs (x : ℚ) : |round2 x - x| ≤ 1/200 := by
  have h := roundHalfEven_sub_abs (x * 100)
  unfold round2
  have heq : (roundHalfEven (x * 100) : ℚ) / 100 - x =
      ((roundHalfEven (x * 100) : ℚ) - x * 100) / 100 := by ring
  rw [heq, abs_div, abs_of_pos (show (0:ℚ) < 100 by norm_num)]
  linarith

/-- C8: stage 5 rebuilds the budget purely as income times the region's
framework ratios (india: 0.40/0.30/0.30; default: 0.50/0.30/0.20), each
component rounded to 2 decimals independently, and the three components sum
to the income up to at most 0.015; the stage stores exactly this value. -/
theorem rebuilt_budget_ratios_and_sum (country : String) (income : ℚ) :
    (country = "india" →
      rebuiltBudget country income =
        { needs := round2 (income * (40/100)), wants := round2 (income * (30/100)),
          savings_investments := round2 (income * (30/100)), framework := "40/30/30" }) ∧
    (country ≠ "india" →
      rebuiltBudget country income =
        { needs := round2 (income * (50/100)), wants := round2 (income * (30/100)),
          savings_investments := round2 (income * (20/100)), framework := "50/30/20" }) ∧
    |(rebuiltBudget country income).needs + (rebuiltBudget country income).wants +
      (rebuiltBudget country income).savings_investments - income| ≤ 15/1000 ∧
    (∀ env st st', node_generate_coach_plan env st = .ok st' →
      st'.rebuilt_budget = some (rebuiltBudget st.country st.monthly_income)) := by
  have key : ∀ a b c : ℚ, a + b + c = income →
      |round2 a + round2 b + round2 c - income| ≤ 15/1000 := by
    intro a b c habc
    have ha := round2_sub_abs a
    have hb := round2_sub_abs b
    have hc := round2_sub_abs c
    have hsplit : round2 a + round2 b + round2 c - income =
        (round2 a - a) + (round2 b - b) + (round2 c - c) := by rw [← habc]; ring
    rw [hsplit]
    calc |(round2 a - a) + (round2 b - b) + (round2 c - c)|
        ≤ |(round2 a - a) + (round2 b - b)| + |round2 c - c| := abs_add _ _
      _ ≤ |round2 a - a| + |round2 b - b| + |round2 c - c| := by
          have := abs_add (round2 a - a) (round2 b - b)
          linarith
      _ ≤ 15/1000 := by linarith
  refine ⟨fun h => by simp [rebuiltBudget, h], fun h => by simp [rebuiltBudget, h], ?_, ?_⟩
  · unfold rebuiltBudget
    split
    · exact key _ _ _ (by ring)
    · exact key _ _ _ (by ring)
  · intro env st st' h
    simp only [node_generate_coach_plan] at h
    split at h
    · cases h
    · injection h with h
      subst h
      rfl

/-- Witness for C8 at a non-"india" region. -/
theorem rebuilt_budget_ratios_and_sum_witness :
    ("us" : String) ≠ "india" ∧
    rebuiltBudget "us" 777 =
      { needs := round2 (777 * (50/100)), wants := round2 (777 * (30/100)),
        savings_investments := round2 (777 * (20/100)), framework := "50/30/20" } :=
  ⟨by decide, (rebuilt_budget_ratios_and_sum "us" 777).2.1 (by decide)⟩

/-- C9: the enrichment stage computes annualized income as 12 times monthly
income (the value handed to the tax estimator) and the investable surplus as
income minus total spending excluding the savings and investments categories,
floored at zero (the value handed to the projection calculator, never
negative). -/
theorem node_fetch_enrichment_computations
    (env : Env) (st : AgentState)
    (infl mkt tax : List (String × String)) (news : List String)
    (proj : List (String × ℚ))
    (h1 : env.get_inflation st.country = .ok infl)
    (h2 : env.get_market_data st.country = .ok mkt)
    (h3 : env.get_financial_news st.country 5 = .ok news)
    (h4 : env.get_tax_estimate st.country (st.monthly_income * 12) = .ok tax)
    (h5 : env.generate_projections
        (max 0 (st.monthly_income -
          ((st.spending.filter
              (fun kv => !(kv.1 == "savings" || kv.1 == "investments"))).map (·.2)).sum))
        st.country = .ok proj) :
    node_fetch_live_data env st = .ok { st with
      inflation_data := infl, market_data := mkt, news_articles := news,
      tax_estimate := tax, projections := proj,
      steps := add_step st "Fetching live market and economic data"
        ("Inflation: " ++ dictGetD infl "inflation_rate" "N/A" ++
          "% | Fetched market prices + " ++ toString news.length ++ " news articles") } ∧
    0 ≤ max 0 (st.monthly_income -
      ((st.spending.filter
          (fun kv => !(kv.1 == "savings" || kv.1 == "investments"))).map (·.2)).sum) := by
  refine ⟨?_, le_max_left _ _⟩
  simp only [node_fetch_live_data, h1, h2, h3, h4, h5]

/-- Witness for C9: the enrichment stage succeeds on the sample state. -/
theorem node_fetch_enrichment_computations_witness :
    ∃ st', node_fetch_live_data okEnv sampleState = .ok st' :=
  ⟨_, (node_fetch_enrichment_computations okEnv sampleState _ _ _ _ _
        rfl rfl rfl rfl rfl).1⟩

/-- C6: if the knowledge store raises on every query, the retrieval stage
returns normally (so the run continues) with the retrieved-knowledge field set
to the empty list and one appended trace entry recording the skip
(step name "Knowledge retrieval", detail "Error: ..."). -/
theorem node_retrieve_degrades_on_failure
    (env : Env) (st : AgentState) (e : String)
    (hfail : ∀ q c n, env.retrieve_knowledge q c n = .error e) :
    node_retrieve_knowledge env st =
      .ok { st with
            retrieved_knowledge := [],
            steps := add_step st "Knowledge retrieval" ("Error: " ++ e) } := by
  simp only [node_retrieve_knowledge, hfail]

/-- Witness for C6 with a concrete always-raising knowledge store. -/
theorem node_retrieve_degrades_on_failure_witness :
    node_retrieve_knowledge kbDownEnv sampleState =
      .ok { sampleState with
            retrieved_knowledge := [],
            steps := add_step sampleState "Knowledge retrieval" ("Error: " ++ "kb down") } :=
  node_retrieve_degrades_on_failure kbDownEnv sampleState "kb down" (fun _ _ _ => rfl)

/-- C7: the retrieval stage queries the knowledge store with result count 4
and the policy query: with at least one flagged anomaly, "budgeting advice for
overspending on" the categories of the top 3 flagged entries by descending
anomaly score; otherwise the generic region query.  The top-3 selection is
sorted by descending score, has `min 3 n` entries, and consists of flagged
anomalies only. -/
theorem node_retrieve_query_policy (env : Env) (st : AgentState) (ks : List Passage) :
    ((st.anomalies.filter (·.is_anomalous)).isEmpty = true →
      env.retrieve_knowledge ("general budgeting and investing advice for " ++ st.country)
        st.country 4 = .ok ks →
      node_retrieve_knowledge env st = .ok { st with
        retrieved_knowledge := ks,
        steps := add_step st "Retrieving financial literacy knowledge"
          ("Found " ++ toString ks.length ++ " relevant passages from trusted sources") }) ∧
    ((st.anomalies.filter (·.is_anomalous)).isEmpty = false →
      env.retrieve_knowledge ("budgeting advice for overspending on " ++
          String.intercalate ", "
            ((topAnomalies (st.anomalies.filter (·.is_anomalous))).map (·.category)))
        st.country 4 = .ok ks →
      node_retrieve_knowledge env st = .ok { st with
        retrieved_knowledge := ks,
        steps := add_step st "Retrieving financial literacy knowledge"
          ("Found " ++ toString ks.length ++ " relevant passages from trusted sources") }) ∧
    List.Sorted (fun a b => b.anomaly_score ≤ a.anomaly_score)
      (topAnomalies (st.anomalies.filter (·.is_anomalous))) ∧
    (topAnomalies (st.anomalies.filter (·.is_anomalous))).length =
      min 3 (st.anomalies.filter (·.is_anomalous)).length ∧
    (∀ a ∈ topAnomalies (st.anomalies.filter (·.is_anomalous)), a.is_anomalous = true) := by
  refine ⟨?_, ?_, ?_, ?_, ?_⟩
  · intro hempty hq
    simp only [node_retrieve_knowledge, hempty, if_true, hq]
  · intro hempty hq
    simp only [node_retrieve_knowledge, hempty, Bool.false_eq_true, if_false, hq]
  · have hsorted := @List.sorted_mergeSort Anomaly
      (fun a b => decide (b.anomaly_score ≤ a.anomaly_score))
      (fun a b c hab hbc => by
        simp only [decide_eq_true_eq] at *
        exact le_trans hbc hab)
      (fun a b => by
        simp only [Bool.or_eq_true, decide_eq_true_eq]
        exact le_total b.anomaly_score a.anomaly_score)
      (st.anomalies.filter (·.is_anomalous))
    have htake : (topAnomalies (st.anomalies.filter (·.is_anomalous))).Sublist
        (List.mergeSort (st.anomalies.filter (·.is_anomalous))
          (fun a b => decide (b.anomaly_score ≤ a.anomaly_score))) :=
      List.take_sublist _ _
    exact (hsorted.sublist htake).imp (fun h => decide_eq_true_eq.mp h)
  · simp [topAnomalies]
  · intro a ha
    have hmem : a ∈ List.mergeSort (st.anomalies.filter (·.is_anomalous))
        (fun a b => decide (b.anomaly_score ≤ a.anomaly_score)) :=
      List.take_subset _ _ ha
    have : a ∈ st.anomalies.filter (·.is_anomalous) := List.mem_mergeSort.mp hmem
    exact (List.mem_filter.mp this).2

/-- Witness for C7 on a state with a flagged anomaly. -/
theorem node_retrieve_query_policy_witness :
    ∃ st', node_retrieve_knowledge okEnv anomState = .ok st' :=
  ⟨_, (node_retrieve_query_policy okEnv anomState [samplePassage]).2.1 (by decide) rfl⟩

/-! ## Trace bookkeeping lemmas: each stage appends exactly one step -/

/-- The step list after `add_step` is numbered by one more entry. -/
theorem add_step_spec (st : AgentState) (n d : String) :
    (add_step st n d).map (·.step_number) =
      st.steps.map (·.step_number) ++ [st.steps.length + 1] ∧
    (add_step st n d).length = st.steps.length + 1 := by
  simp [add_step]

/-- Stage 1 appends exactly one trace entry on success. -/
theorem node_analyze_spending_steps {env : Env} {st st' : AgentState}
    (h : node_analyze_spending env st = .ok st') :
    st'.steps.map (·.step_number) = st.steps.map (·.step_number) ++ [st.steps.length + 1] ∧
    st'.steps.length = st.steps.length + 1 := by
  simp only [node_analyze_spending] at h
  split at h
  · cases h
  · split at h
    · cases h
    · injection h with h
      subst h
      exact add_step_spec st _ _

/-- Stage 2 appends exactly one trace entry on success. -/
theorem node_fetch_live_data_steps {env : Env} {st st' : AgentState}
    (h : node_fetch_live_data env st = .ok st') :
    st'.steps.map (·.step_number) = st.steps.map (·.step_number) ++ [st.steps.length + 1] ∧
    st'.steps.length = st.steps.length + 1 := by
  simp only [node_fetch_live_data] at h
  split at h
  · cases h
  · split at h
    · cases h
    · split at h
      · cases h
      · split at h
        · cases h
        · split at h
          · cases h
          · injection h with h
            subst h
            exact add_step_spec st _ _

/-- Stage 3 appends exactly one trace entry on either outcome of retrieval. -/
theorem node_retrieve_knowledge_steps {env : Env} {st st' : AgentState}
    (h : node_retrieve_knowledge env st = .ok st') :
    st'.steps.map (·.step_number) = st.steps.map (·.step_number) ++ [st.steps.length + 1] ∧
    st'.steps.length = st.steps.length + 1 := by
  simp only [node_retrieve_knowledge] at h
  split at h <;> · injection h with h; subst h; exact add_step_spec st _ _

/-- Stage 4 appends exactly one trace entry on success. -/
theorem node_generate_roast_steps {env : Env} {st st' : AgentState}
    (h : node_generate_roast env st = .ok st') :
    st'.steps.map (·.step_number) = st.steps.map (·.step_number) ++ [st.steps.length + 1] ∧
    st'.steps.length = st.steps.length + 1 := by
  simp only [node_generate_roast] at h
  split at h
  · cases h
  · injection h with h
    subst h
    exact add_step_spec st _ _

/-- Stage 5 appends exactly one trace entry on success. -/
theorem node_generate_coach_plan_steps {env : Env} {st st' : AgentState}
    (h : node_generate_coach_plan env st = .ok st') :
    st'.steps.map (·.step_number) = st.steps.map (·.step_number) ++ [st.steps.length + 1] ∧
    st'.steps.length = st.steps.length + 1 := by
  simp only [node_generate_coach_plan] at h
  split at h
  · cases h
  · injection h with h
    subst h
    exact add_step_spec st _ _

/-- C5: on every valid input (positive income, non-negative spending), a
completed run's trace has exactly 5 entries whose step numbers are 1,2,3,4,5 —
strictly increasing and contiguous from 1, one appended by each stage. -/
theorem pipeline_trace_five_steps (env : Env) (input : BudgetInput) (st : AgentState)
    (hinc : 0 < input.monthly_income) (hsp : ∀ kv ∈ input.spending, (0:ℚ) ≤ kv.2)
    (h : runPipeline env input = .ok st) :
    st.steps.map (·.step_number) = [1, 2, 3, 4, 5] ∧ st.steps.length = 5 := by
  simp only [runPipeline] at h
  cases h1 : node_analyze_spending env (create_initial_state input) with
  | error e => rw [h1] at h; cases h
  | ok st1 =>
    simp only [h1] at h
    cases h2 : node_fetch_live_data env st1 with
    | error e => rw [h2] at h; cases h
    | ok st2 =>
      simp only [h2] at h
      cases h3 : node_retrieve_knowledge env st2 with
      | error e => rw [h3] at h; cases h
      | ok st3 =>
        simp only [h3] at h
        cases h4 : node_generate_roast env st3 with
        | error e => rw [h4] at h; cases h
        | ok st4 =>
          simp only [h4] at h
          obtain ⟨m1, l1⟩ := node_analyze_spending_steps h1
          obtain ⟨m2, l2⟩ := node_fetch_live_data_steps h2
          obtain ⟨m3, l3⟩ := node_retrieve_knowledge_steps h3
          obtain ⟨m4, l4⟩ := node_generate_roast_steps h4
          obtain ⟨m5, l5⟩ := node_generate_coach_plan_steps h
          constructor
          · rw [m5, m4, m3, m2, m1, l4, l3, l2, l1]
            simp [create_initial_state]
          · rw [l5, l4, l3, l2, l1]
            simp [create_initial_state]

/-- Witness for C5: a concrete run through `okEnv` completes with trace
numbers 1..5. -/
theorem pipeline_trace_five_steps_witness :
    (0:ℚ) < inputOk.monthly_income ∧
    ∃ st, runPipeline okEnv inputOk = Except.ok st ∧
      st.steps.map (·.step_number) = [1, 2, 3, 4, 5] :=
  ⟨by decide, _, rfl,
    (pipeline_trace_five_steps okEnv inputOk _ (by decide) (by decide) rfl).1⟩

/-- Counterexample to C4 as stated: with a primary backend failing with a
non-quota error ("boom") at the roast stage, the pipeline raises to the caller
instead of returning a record with the error captured. -/
theorem pipeline_raises_counterexample :
    runPipeline bugEnv inputOk = Except.error "boom" := by rfl

/-- C4 (amended): a run whose stages all succeed returns a populated record,
and generation-quota exhaustion in both providers does not abort the run: the
roast and coach-plan fields degrade to the static apology string, and the
error slot stays unset (no stage ever writes it); but an unrecoverable stage
failure — e.g. a non-quota generation error — propagates to the caller
(see `pipeline_raises_counterexample`). -/
theorem pipeline_quota_degradation (input : BudgetInput) :
    ∃ st, runPipeline quotaEnv input = Except.ok st ∧
      st.roast = fallbackMessage ∧ st.coach_plan = fallbackMessage ∧
      st.error = none :=
  ⟨_, rfl, rfl, rfl, rfl⟩
